import Mathlib

/-!
Shallow embedding of the energy-aware cache replacement policy
(`src/gem5/src/mem/cache/replacement_policies/energy_aware_rp.{hh,cc}`).

Doubles are modelled as rationals, the gem5 `Tick` clock as `Nat`, and the
stateful `EnergyAwareReplData` record as a Lean structure with explicit state
passing: each mutator takes the metadata and the current clock value and
returns the updated metadata.  The global `curTick()` call sites of the source
become the explicit `now` / `currentTick` parameters.
-/

namespace EnergyAware

/-- Modelled from the spec: the external `SaturatingCounter(bits)` capability
(the source stores `SatCounter` fields but `sat_counter.hh` is not part of this
repository).  The counter saturates at `2 ^ bits - 1`. -/
def satMax (bits : Nat) : Nat := 2 ^ bits - 1

/-- Modelled from the spec: `SaturatingCounter.increment()` is a no-op once the
counter has reached its saturating bound, otherwise it adds one. -/
def satIncrement (bits v : Nat) : Nat := if v < satMax bits then v + 1 else v

/-- Configuration of the policy: the `const` fields of class `EnergyAwareRP`
(energy_aware_rp.hh lines 85-114), in declaration order. -/
structure PolicyConfig where
  frequencyBits : Nat
  writeBits : Nat
  recencyWeight : ℚ
  frequencyWeight : ℚ
  writeWeight : ℚ
  dirtyWeight : ℚ
  utilizationWeight : ℚ
  pcmWriteCost : ℚ
  pcmReadCost : ℚ
  blockSize : Nat

/-- `EnergyAwareRP::EnergyAwareRP(const Params *p)` (energy_aware_rp.cc lines
40-53): copies each parameter into the corresponding field.  The constructor
body is empty; no parameter is validated or rejected. -/
def mkEnergyAwareRP (frequency_bits write_bits : Nat)
    (recency_weight frequency_weight write_weight dirty_weight
     utilization_weight pcm_write_cost pcm_read_cost : ℚ)
    (block_size : Nat) : PolicyConfig :=
  { frequencyBits := frequency_bits
    writeBits := write_bits
    recencyWeight := recency_weight
    frequencyWeight := frequency_weight
    writeWeight := write_weight
    dirtyWeight := dirty_weight
    utilizationWeight := utilization_weight
    pcmWriteCost := pcm_write_cost
    pcmReadCost := pcm_read_cost
    blockSize := block_size }

/-- `struct EnergyAwareReplData` (energy_aware_rp.hh lines 54-83).  The two
`SatCounter` members are represented by their current `Nat` value; their bit
widths live in the `PolicyConfig` that every operation receives. -/
structure EnergyAwareReplData where
  lastTouchTick : Nat
  accessFreq : Nat
  writeCount : Nat
  bytesUsed : Nat
  isDirty : Bool
  predictedReuse : Nat
  energyCost : ℚ

/-- The recency factor of `calculateEnergyCost` (energy_aware_rp.cc lines
61-66): `(currentTick - lastTouchTick) / currentTick` when
`currentTick > lastTouchTick`, else `0`.  The guard also covers
`currentTick = 0`, so the division is never taken with a zero denominator. -/
def recencyFactor (lastTouchTick currentTick : Nat) : ℚ :=
  if lastTouchTick < currentTick
  then ((currentTick - lastTouchTick : Nat) : ℚ) / (currentTick : ℚ)
  else 0

/-- `double maxFreq = (1 << frequencyBits) - 1` (energy_aware_rp.cc line 69). -/
def maxFreqQ (cfg : PolicyConfig) : ℚ := ((2 ^ cfg.frequencyBits - 1 : Nat) : ℚ)

/-- `double maxWrites = (1 << writeBits) - 1` (energy_aware_rp.cc line 73). -/
def maxWritesQ (cfg : PolicyConfig) : ℚ := ((2 ^ cfg.writeBits - 1 : Nat) : ℚ)

/-- `EnergyAwareRP::calculateEnergyCost` (energy_aware_rp.cc lines 55-100),
with the `curTick()` read passed in as `currentTick`. -/
def calculateEnergyCost (cfg : PolicyConfig) (m : EnergyAwareReplData)
    (currentTick : Nat) : ℚ :=
  let rf : ℚ := recencyFactor m.lastTouchTick currentTick
  let frequencyFactor : ℚ := 1 - (m.accessFreq : ℚ) / maxFreqQ cfg
  let writeIntensity : ℚ := (m.writeCount : ℚ) / maxWritesQ cfg
  let dirtyFactor : ℚ := if m.isDirty then 1 else 0
  let utilizationFactor : ℚ := 1 - (m.bytesUsed : ℚ) / (cfg.blockSize : ℚ)
  let futureReadCost : ℚ := (m.accessFreq : ℚ) * cfg.pcmReadCost
  let futureWriteCost : ℚ := (m.writeCount : ℚ) * cfg.pcmWriteCost
  let writeBackCost : ℚ := if m.isDirty then cfg.pcmWriteCost else 0
  let energyCost : ℚ :=
    cfg.recencyWeight * rf +
    cfg.frequencyWeight * frequencyFactor +
    cfg.writeWeight * writeIntensity +
    cfg.dirtyWeight * dirtyFactor +
    cfg.utilizationWeight * utilizationFactor +
    1/10 * (futureReadCost + futureWriteCost) -
    1/5 * writeBackCost
  max 0 energyCost

/-- `EnergyAwareRP::invalidate` (energy_aware_rp.cc lines 102-116): every
field is overwritten with zero / `false` / `0.0`. -/
def invalidate (_ : EnergyAwareReplData) : EnergyAwareReplData :=
  { lastTouchTick := 0
    accessFreq := 0
    writeCount := 0
    bytesUsed := 0
    isDirty := false
    predictedReuse := 0
    energyCost := 0 }

/-- `EnergyAwareRP::touch` (energy_aware_rp.cc lines 118-129): update
`lastTouchTick` and the frequency counter first, then recompute the cached
cost on the updated record at the same clock value. -/
def touch (cfg : PolicyConfig) (m : EnergyAwareReplData) (now : Nat) :
    EnergyAwareReplData :=
  let m1 : EnergyAwareReplData :=
    { m with lastTouchTick := now
             accessFreq := satIncrement cfg.frequencyBits m.accessFreq }
  { m1 with energyCost := calculateEnergyCost cfg m1 now }

/-- `EnergyAwareRP::reset` (energy_aware_rp.cc lines 131-144): set
`lastTouchTick`, increment the frequency counter (it is not cleared first),
clear the write counter, assume full utilization, clear the dirty flag, set
`predictedReuse` to one and recompute the cached cost. -/
def reset (cfg : PolicyConfig) (m : EnergyAwareReplData) (now : Nat) :
    EnergyAwareReplData :=
  let m1 : EnergyAwareReplData :=
    { m with lastTouchTick := now
             accessFreq := satIncrement cfg.frequencyBits m.accessFreq
             writeCount := 0
             bytesUsed := cfg.blockSize
             isDirty := false
             predictedReuse := 1 }
  { m1 with energyCost := calculateEnergyCost cfg m1 now }

/-- `EnergyAwareRP::instantiateEntry` (energy_aware_rp.cc lines 174-179)
together with the `EnergyAwareReplData` constructor (energy_aware_rp.hh lines
80-82): all fields start at zero / `false` / `0.0`. -/
def instantiateEntry : EnergyAwareReplData :=
  { lastTouchTick := 0
    accessFreq := 0
    writeCount := 0
    bytesUsed := 0
    isDirty := false
    predictedReuse := 0
    energyCost := 0 }

/-- `EnergyAwareRP::updateWriteStats` (energy_aware_rp.cc lines 181-189). -/
def updateWriteStats (cfg : PolicyConfig) (m : EnergyAwareReplData)
    (now : Nat) : EnergyAwareReplData :=
  let m1 : EnergyAwareReplData :=
    { m with writeCount := satIncrement cfg.writeBits m.writeCount }
  { m1 with energyCost := calculateEnergyCost cfg m1 now }

/-- `EnergyAwareRP::updateUtilization` (energy_aware_rp.cc lines 191-201):
`bytesUsed = max(bytesUsed, bytes_accessed)`, then recompute the cost.  The
argument is not clamped to the block size. -/
def updateUtilization (cfg : PolicyConfig) (m : EnergyAwareReplData)
    (now : Nat) (bytes_accessed : Nat) : EnergyAwareReplData :=
  let m1 : EnergyAwareReplData :=
    { m with bytesUsed := max m.bytesUsed bytes_accessed }
  { m1 with energyCost := calculateEnergyCost cfg m1 now }

/-- `EnergyAwareRP::setDirtyStatus` (energy_aware_rp.cc lines 203-212). -/
def setDirtyStatus (cfg : PolicyConfig) (m : EnergyAwareReplData)
    (now : Nat) (is_dirty : Bool) : EnergyAwareReplData :=
  let m1 : EnergyAwareReplData := { m with isDirty := is_dirty }
  { m1 with energyCost := calculateEnergyCost cfg m1 now }

/-- The candidate loop of `EnergyAwareRP::getVictim` (energy_aware_rp.cc lines
157-169): walk the candidates carrying the index `i` of the current element,
the index `victim` of the current victim and the running `maxCost`; a strictly
greater recomputed cost replaces the victim. -/
def getVictimLoop (cfg : PolicyConfig) (now : Nat) :
    List EnergyAwareReplData → Nat → Nat → ℚ → Nat
  | [], _, victim, _ => victim
  | c :: rest, i, victim, maxCost =>
    let cost := calculateEnergyCost cfg c now
    if cost > maxCost then getVictimLoop cfg now rest (i + 1) i cost
    else getVictimLoop cfg now rest (i + 1) victim maxCost

/-- `EnergyAwareRP::getVictim` (energy_aware_rp.cc lines 146-172), returning
the index of the chosen candidate.  `maxCost` starts from the *cached*
`energyCost` of the first candidate (lines 153-155); the loop then visits
every candidate, the first included, comparing recomputed costs against it.
The empty list (whose `assert` aborts in the source) maps to `none`. -/
def getVictim (cfg : PolicyConfig) (now : Nat)
    (candidates : List EnergyAwareReplData) : Option Nat :=
  match candidates with
  | [] => none
  | c0 :: _ => some (getVictimLoop cfg now candidates 0 0 c0.energyCost)

/-- Generic form of the `getVictim` loop over a list of already-computed
costs; used to reason about the loop independently of the cost function. -/
def selectMax : List ℚ → Nat → Nat → ℚ → Nat
  | [], _, victim, _ => victim
  | c :: rest, i, victim, best =>
    if c > best then selectMax rest (i + 1) i c
    else selectMax rest (i + 1) victim best

/-- The configuration of the spec's end-to-end test vector:
`frequencyBits=4, writeBits=4, blockSize=64, recencyWeight=0.3,
frequencyWeight=0.2, writeWeight=0.2, dirtyWeight=0.2, utilizationWeight=0.1,
pcmReadCost=1, pcmWriteCost=5`. -/
def cfg2 : PolicyConfig :=
  mkEnergyAwareRP 4 4 (3/10) (1/5) (1/5) (1/5) (1/10) 5 1 64

/-- The test vector's state after `reset` at clock 100 on a fresh entry. -/
def vectorReset : EnergyAwareReplData := reset cfg2 instantiateEntry 100

/-- The test vector's state after the subsequent `touch` at clock 200. -/
def vectorTouch : EnergyAwareReplData := touch cfg2 vectorReset 200

/-- Configuration used for the `getVictim` counterexample: one-bit counters,
`recencyWeight = 1`, every other weight and cost zero, block size one. -/
def cexCfg : PolicyConfig := mkEnergyAwareRP 1 1 1 0 0 0 0 0 0 1

/-- First candidate of the `getVictim` counterexample: touched at tick 10 but
carrying a stale cached `energyCost` of 7. -/
def cexStale : EnergyAwareReplData :=
  { lastTouchTick := 10
    accessFreq := 0
    writeCount := 0
    bytesUsed := 0
    isDirty := false
    predictedReuse := 0
    energyCost := 7 }

/-- Second candidate of the `getVictim` counterexample: last touched at tick
5, cached cost 0. -/
def cexFresh : EnergyAwareReplData :=
  { lastTouchTick := 5
    accessFreq := 0
    writeCount := 0
    bytesUsed := 0
    isDirty := false
    predictedReuse := 0
    energyCost := 0 }

/-- Prior metadata state for the `reset` counterexample: a valid entry whose
frequency counter already reads 3. -/
def c4Prior : EnergyAwareReplData :=
  { lastTouchTick := 0
    accessFreq := 3
    writeCount := 0
    bytesUsed := 0
    isDirty := false
    predictedReuse := 0
    energyCost := 0 }

/-- Shared helper: the final clamp of `calculateEnergyCost` makes every result
non-negative, for arbitrary configurations. -/
lemma calculateEnergyCost_nonneg (cfg : PolicyConfig) (m : EnergyAwareReplData)
    (t : Nat) : 0 ≤ calculateEnergyCost cfg m t :=
  le_max_left 0 _

/-- Shared helper: `bytesUsed` never decreases across a fold of
`updateUtilization` calls. -/
lemma updateUtilization_foldl_le (cfg : PolicyConfig) (now : Nat) :
    ∀ (bs : List Nat) (m : EnergyAwareReplData),
      m.bytesUsed ≤
        (bs.foldl (fun acc b => updateUtilization cfg acc now b) m).bytesUsed := by
  intro bs
  induction bs with
  | nil => intro m; exact le_refl _
  | cons b rest ih =>
    intro m
    refine le_trans ?_ (ih (updateUtilization cfg m now b))
    exact le_max_left m.bytesUsed b

/-- C6: for every metadata instance, every configuration with positive
`frequencyBits`, `writeBits` and `blockSize`, and every clock value, the cost
function returns a non-negative value (the final `max(0, ...)` clamp holds). -/
theorem cost_nonneg (cfg : PolicyConfig) (m : EnergyAwareReplData) (t : Nat)
    (hf : 0 < cfg.frequencyBits) (hw : 0 < cfg.writeBits)
    (hb : 0 < cfg.blockSize) :
    0 ≤ calculateEnergyCost cfg m t :=
  calculateEnergyCost_nonneg cfg m t

/-- C6 witness: the non-negativity theorem applied to the test-vector
configuration, a fresh entry and clock value 0. -/
theorem cost_nonneg_witness :
    0 ≤ calculateEnergyCost cfg2 instantiateEntry 0 :=
  cost_nonneg cfg2 instantiateEntry 0 (by norm_num [cfg2, mkEnergyAwareRP])
    (by norm_num [cfg2, mkEnergyAwareRP]) (by norm_num [cfg2, mkEnergyAwareRP])

/-- C7: `touch` leaves `writeCount`, `bytesUsed` and `isDirty` unchanged,
sets `lastTouchTick` to the current clock, and increments `accessFreq` by
exactly one unless the counter is already saturated, in which case it is left
unchanged. -/
theorem touch_frame (cfg : PolicyConfig) (m : EnergyAwareReplData) (now : Nat) :
    (touch cfg m now).writeCount = m.writeCount ∧
    (touch cfg m now).bytesUsed = m.bytesUsed ∧
    (touch cfg m now).isDirty = m.isDirty ∧
    (touch cfg m now).lastTouchTick = now ∧
    (m.accessFreq < satMax cfg.frequencyBits →
      (touch cfg m now).accessFreq = m.accessFreq + 1) ∧
    (satMax cfg.frequencyBits ≤ m.accessFreq →
      (touch cfg m now).accessFreq = m.accessFreq) := by
  refine ⟨rfl, rfl, rfl, rfl, ?_, ?_⟩
  · intro h
    simp [touch, satIncrement, if_pos h]
  · intro h
    simp [touch, satIncrement, Nat.not_lt.mpr h]

/-- C7 witness: the frame theorem applied at the test-vector configuration
and the state after the vector's `reset`, with both saturation hypotheses
discharged at the concrete counter value 1. -/
theorem touch_frame_witness :
    (touch cfg2 vectorReset 200).writeCount = vectorReset.writeCount ∧
    (touch cfg2 vectorReset 200).accessFreq = vectorReset.accessFreq + 1 := by
  refine ⟨(touch_frame cfg2 vectorReset 200).1, ?_⟩
  refine (touch_frame cfg2 vectorReset 200).2.2.2.2.1 ?_
  norm_num [vectorReset, reset, instantiateEntry, cfg2, mkEnergyAwareRP,
    satIncrement, satMax]

/-- C8: with `currentTime = 0` the recency factor is 0 for every
`lastTouchTime` (the guard `lastTouchTick < currentTick` fails, so the
division by `currentTick` is never taken), and the cost at clock 0 does not
depend on `lastTouchTick` at all. -/
theorem cost_at_zero_time (cfg : PolicyConfig) (m : EnergyAwareReplData)
    (l : Nat) :
    recencyFactor m.lastTouchTick 0 = 0 ∧
    calculateEnergyCost cfg m 0 =
      calculateEnergyCost cfg { m with lastTouchTick := l } 0 := by
  constructor
  · simp [recencyFactor]
  · simp [calculateEnergyCost, recencyFactor]

/-- C9: a single `updateUtilization` call sets `bytesUsed` to the maximum of
its previous value and `bytesAccessed`, hence never decreases it, and across
any sequence of calls `bytesUsed` is monotone non-decreasing. -/
theorem updateUtilization_monotone (cfg : PolicyConfig)
    (m : EnergyAwareReplData) (now b : Nat) :
    (updateUtilization cfg m now b).bytesUsed = max m.bytesUsed b ∧
    m.bytesUsed ≤ (updateUtilization cfg m now b).bytesUsed ∧
    ∀ bs : List Nat,
      m.bytesUsed ≤
        (bs.foldl (fun acc x => updateUtilization cfg acc now x) m).bytesUsed :=
  ⟨rfl, le_max_left m.bytesUsed b, fun bs => updateUtilization_foldl_le cfg now bs m⟩

/-- C3: the constructor performs no validation.  Evaluated at
`frequency_bits = 0` and `write_bits = 0` (the remaining parameters are the
test-vector ones) it returns a policy that still carries the zero bit widths,
and both divisors of the cost formula, `maxFreq` and `maxWrites`, are exactly
0 — so nothing is rejected at construction and the division by zero is reached
at call time. -/
theorem ctor_no_validation :
    (mkEnergyAwareRP 0 0 (3/10) (1/5) (1/5) (1/5) (1/10) 5 1 64).frequencyBits
      = 0 ∧
    (mkEnergyAwareRP 0 0 (3/10) (1/5) (1/5) (1/5) (1/10) 5 1 64).writeBits
      = 0 ∧
    maxFreqQ (mkEnergyAwareRP 0 0 (3/10) (1/5) (1/5) (1/5) (1/10) 5 1 64)
      = 0 ∧
    maxWritesQ (mkEnergyAwareRP 0 0 (3/10) (1/5) (1/5) (1/5) (1/10) 5 1 64)
      = 0 := by
  norm_num [mkEnergyAwareRP, maxFreqQ, maxWritesQ]

/-- C4 counterexample: `reset` increments the frequency counter instead of
setting it to 1, so from a prior state whose counter reads 3 the counter reads
4 after `reset`, refuting the claim for arbitrary prior states. -/
theorem reset_accessFreq_cex :
    (reset cfg2 c4Prior 100).accessFreq = 4 ∧
    (reset cfg2 c4Prior 100).accessFreq ≠ 1 := by
  norm_num [reset, cfg2, mkEnergyAwareRP, c4Prior, satIncrement, satMax]

/-- C4 (amended): for every prior state, `reset(metadata, now)` yields
`lastTouchTime = now`, `writeCount = 0`, `bytesUsed = blockSize` and
`dirty = false`; `accessFrequency` becomes the saturating increment of its
prior value rather than being set to 1 — in particular it equals 1 whenever
the prior counter read 0 (the Invalid state) and `frequencyBits` is
positive. -/
theorem reset_postconditions (cfg : PolicyConfig) (m : EnergyAwareReplData)
    (now : Nat) :
    (reset cfg m now).lastTouchTick = now ∧
    (reset cfg m now).writeCount = 0 ∧
    (reset cfg m now).bytesUsed = cfg.blockSize ∧
    (reset cfg m now).isDirty = false ∧
    (reset cfg m now).accessFreq = satIncrement cfg.frequencyBits m.accessFreq ∧
    (m.accessFreq = 0 → 0 < cfg.frequencyBits →
      (reset cfg m now).accessFreq = 1) := by
  refine ⟨rfl, rfl, rfl, rfl, rfl, ?_⟩
  intro h0 hb
  have h2 : 1 < 2 ^ cfg.frequencyBits :=
    Nat.one_lt_two_pow_iff.mpr (Nat.pos_iff_ne_zero.mp hb)
  have hmax : 0 < satMax cfg.frequencyBits := by
    simp only [satMax]
    omega
  simp [reset, satIncrement, h0, if_pos hmax]

/-- C4 witness: the amended theorem applied to a freshly instantiated entry
(whose counter reads 0) under the test-vector configuration, with both inner
hypotheses of the increment-to-1 conjunct discharged concretely. -/
theorem reset_postconditions_witness :
    (reset cfg2 instantiateEntry 100).lastTouchTick = 100 ∧
    (reset cfg2 instantiateEntry 100).writeCount = 0 ∧
    (reset cfg2 instantiateEntry 100).bytesUsed = cfg2.blockSize ∧
    (reset cfg2 instantiateEntry 100).isDirty = false ∧
    (reset cfg2 instantiateEntry 100).accessFreq = 1 :=
  ⟨(reset_postconditions cfg2 instantiateEntry 100).1,
   (reset_postconditions cfg2 instantiateEntry 100).2.1,
   (reset_postconditions cfg2 instantiateEntry 100).2.2.1,
   (reset_postconditions cfg2 instantiateEntry 100).2.2.2.1,
   (reset_postconditions cfg2 instantiateEntry 100).2.2.2.2.2 rfl
     (by norm_num [cfg2, mkEnergyAwareRP])⟩

/-- C5 counterexample: `updateUtilization` does not clamp its argument, so
from a state satisfying the invariant (`bytesUsed = 0 ≤ 64`) a call with
`bytesAccessed = 65` drives `bytesUsed` to 65, above the block size. -/
theorem updateUtilization_overflow_cex :
    instantiateEntry.bytesUsed ≤ cfg2.blockSize ∧
    (updateUtilization cfg2 instantiateEntry 100 65).bytesUsed = 65 ∧
    ¬ (updateUtilization cfg2 instantiateEntry 100 65).bytesUsed
        ≤ cfg2.blockSize := by
  norm_num [updateUtilization, instantiateEntry, cfg2, mkEnergyAwareRP]

/-- C5 (amended): `bytesUsed ≤ blockSize` holds after instantiation and is
preserved by `reset`, `touch`, `invalidate`, `updateWriteStats` and
`setDirtyStatus`; `updateUtilization` preserves it provided its
`bytesAccessed` argument is at most `blockSize`. -/
theorem bytesUsed_invariant_preserved (cfg : PolicyConfig)
    (m : EnergyAwareReplData) (now b : Nat) (d : Bool)
    (h : m.bytesUsed ≤ cfg.blockSize) :
    instantiateEntry.bytesUsed ≤ cfg.blockSize ∧
    (reset cfg m now).bytesUsed ≤ cfg.blockSize ∧
    (touch cfg m now).bytesUsed ≤ cfg.blockSize ∧
    (invalidate m).bytesUsed ≤ cfg.blockSize ∧
    (updateWriteStats cfg m now).bytesUsed ≤ cfg.blockSize ∧
    (setDirtyStatus cfg m now d).bytesUsed ≤ cfg.blockSize ∧
    (b ≤ cfg.blockSize →
      (updateUtilization cfg m now b).bytesUsed ≤ cfg.blockSize) := by
  refine ⟨Nat.zero_le _, le_refl _, h, Nat.zero_le _, h, h, fun hb => ?_⟩
  exact max_le h hb

/-- C5 witness: the amended invariant theorem applied to the test-vector
configuration and a fresh entry, with the invariant hypothesis discharged at
`bytesUsed = 0`. -/
theorem bytesUsed_invariant_preserved_witness :
    instantiateEntry.bytesUsed ≤ cfg2.blockSize ∧
    (reset cfg2 instantiateEntry 0 ).bytesUsed ≤ cfg2.blockSize ∧
    (touch cfg2 instantiateEntry 0 ).bytesUsed ≤ cfg2.blockSize ∧
    (invalidate instantiateEntry).bytesUsed ≤ cfg2.blockSize ∧
    (updateWriteStats cfg2 instantiateEntry 0 ).bytesUsed ≤ cfg2.blockSize ∧
    (setDirtyStatus cfg2 instantiateEntry 0 false).bytesUsed
      ≤ cfg2.blockSize ∧
    (64 ≤ cfg2.blockSize →
      (updateUtilization cfg2 instantiateEntry 0 64).bytesUsed
        ≤ cfg2.blockSize) :=
  bytesUsed_invariant_preserved cfg2 instantiateEntry 0 64 false
    (Nat.zero_le _)

/-- C10: after `invalidate`, recomputing the cost at any positive clock value
gives exactly `max(0, recencyWeight + frequencyWeight + utilizationWeight)`:
the recency, inverse-frequency and under-utilization factors are all 1 and
every write- and dirty-related term vanishes. -/
theorem invalidate_cost_baseline (cfg : PolicyConfig)
    (m : EnergyAwareReplData) (t : Nat) (hf : 0 < cfg.frequencyBits)
    (hw : 0 < cfg.writeBits) (hbs : 0 < cfg.blockSize) (ht : 0 < t) :
    calculateEnergyCost cfg (invalidate m) t
      = max 0 (cfg.recencyWeight + cfg.frequencyWeight
                + cfg.utilizationWeight) := by
  have htq : ((t : ℚ)) ≠ 0 := Nat.cast_ne_zero.mpr ht.ne'
  have h1 : recencyFactor 0 t = 1 := by
    simp [recencyFactor, ht, div_self htq]
  simp only [calculateEnergyCost, invalidate, h1]
  norm_num

/-- C10 witness: the baseline-cost theorem applied to the test-vector
configuration and a fresh entry at clock value 10. -/
theorem invalidate_cost_baseline_witness :
    calculateEnergyCost cfg2 (invalidate instantiateEntry) 10
      = max 0 (cfg2.recencyWeight + cfg2.frequencyWeight
                + cfg2.utilizationWeight) :=
  invalidate_cost_baseline cfg2 instantiateEntry 10
    (by norm_num [cfg2, mkEnergyAwareRP]) (by norm_num [cfg2, mkEnergyAwareRP])
    (by norm_num [cfg2, mkEnergyAwareRP]) (by norm_num)

/-- Shared helper: the cached cost after the vector's `reset` at clock 100 is
exactly 43/150 (≈ 0.28667). -/
lemma vectorReset_energyCost : vectorReset.energyCost = 43/150 := by
  norm_num [vectorReset, reset, instantiateEntry, cfg2, mkEnergyAwareRP,
    calculateEnergyCost, recencyFactor, maxFreqQ, maxWritesQ, satIncrement,
    satMax, max_def]

/-- Shared helper: the cached cost after the subsequent `touch` at clock 200
is exactly 28/75 (≈ 0.37333), because `touch` writes `lastTouchTick = 200`
before recomputing, which zeroes the recency factor. -/
lemma vectorTouch_energyCost : vectorTouch.energyCost = 28/75 := by
  norm_num [vectorTouch, vectorReset, touch, reset, instantiateEntry, cfg2,
    mkEnergyAwareRP, calculateEnergyCost, recencyFactor, maxFreqQ, maxWritesQ,
    satIncrement, satMax, max_def]

/-- C2 counterexample: in the spec's end-to-end vector the state after the
`touch` at clock 200 has `accessFrequency = 2` and `lastTouchTime = 200` as
claimed, but its recency factor at clock 200 is 0 (not 0.5) and its recomputed
cost is not within 0.1 of the claimed 0.5233 — it is 28/75 ≈ 0.3733. -/
theorem touch_vector_cost_cex :
    vectorTouch.accessFreq = 2 ∧
    vectorTouch.lastTouchTick = 200 ∧
    recencyFactor vectorTouch.lastTouchTick 200 = 0 ∧
    ¬ |vectorTouch.energyCost - 5233/10000| < 1/10 := by
  refine ⟨?_, rfl, ?_, ?_⟩
  · norm_num [vectorTouch, vectorReset, touch, reset, instantiateEntry, cfg2,
      mkEnergyAwareRP, satIncrement, satMax]
  · rw [show vectorTouch.lastTouchTick = 200 from rfl]
    norm_num [recencyFactor]
  · rw [vectorTouch_energyCost, abs_sub_comm,
      abs_of_pos (by norm_num : (0:ℚ) < 5233/10000 - 28/75)]
    norm_num

/-- C2 (amended): with the test-vector configuration, `reset` at clock 100
yields `accessFrequency = 1`, `bytesUsed = 64`, `dirty = false` and cached
cost 43/150, within 1/10000 of the claimed 0.2867; the subsequent `touch` at
clock 200 yields `accessFrequency = 2`, `lastTouchTime = 200` and cached cost
28/75 ≈ 0.3733 (the recency factor is 0, not 0.5, because `touch` updates
`lastTouchTime` before recomputing the cost). -/
theorem reset_touch_vector :
    vectorReset.accessFreq = 1 ∧
    vectorReset.bytesUsed = 64 ∧
    vectorReset.isDirty = false ∧
    vectorReset.energyCost = 43/150 ∧
    |vectorReset.energyCost - 2867/10000| < 1/10000 ∧
    vectorTouch.accessFreq = 2 ∧
    vectorTouch.lastTouchTick = 200 ∧
    vectorTouch.energyCost = 28/75 := by
  refine ⟨?_, rfl, rfl, vectorReset_energyCost, ?_, ?_, rfl,
    vectorTouch_energyCost⟩
  · norm_num [vectorReset, reset, instantiateEntry, cfg2, mkEnergyAwareRP,
      satIncrement, satMax]
  · rw [vectorReset_energyCost, abs_sub_comm,
      abs_of_pos (by norm_num : (0:ℚ) < 2867/10000 - 43/150)]
    norm_num
  · norm_num [vectorTouch, vectorReset, touch, reset, instantiateEntry, cfg2,
      mkEnergyAwareRP, satIncrement, satMax]

/-- Shared helper: the `getVictim` loop is the generic `selectMax` fold over
the list of recomputed costs. -/
lemma getVictimLoop_eq_selectMax (cfg : PolicyConfig) (now : Nat) :
    ∀ (cs : List EnergyAwareReplData) (i victim : Nat) (best : ℚ),
      getVictimLoop cfg now cs i victim best
        = selectMax (cs.map (fun c => calculateEnergyCost cfg c now))
            i victim best := by
  intro cs
  induction cs with
  | nil => intro i victim best; rfl
  | cons c rest ih =>
    intro i victim best
    simp only [getVictimLoop, List.map_cons, selectMax]
    by_cases h : calculateEnergyCost cfg c now > best
    · rw [if_pos h, if_pos h, ih]
    · rw [if_neg h, if_neg h, ih]

/-- Shared helper: full characterization of the `selectMax` fold.  Either no
element strictly exceeds the running `best` and the initial `victim` survives,
or the result is the absolute index (`i + k`) of the earliest element that is
strictly greater than `best`, weakly greater than every element, and strictly
greater than every earlier element. -/
lemma selectMax_characterization :
    ∀ (costs : List ℚ) (i victim : Nat) (best : ℚ),
      (selectMax costs i victim best = victim ∧
        ∀ j, j < costs.length → costs.getD j 0 ≤ best) ∨
      (∃ k, k < costs.length ∧ selectMax costs i victim best = i + k ∧
        best < costs.getD k 0 ∧
        (∀ j, j < costs.length → costs.getD j 0 ≤ costs.getD k 0) ∧
        (∀ j, j < k → costs.getD j 0 < costs.getD k 0)) := by
  intro costs
  induction costs with
  | nil =>
    intro i victim best
    left
    exact ⟨rfl, fun j hj => absurd hj (Nat.not_lt_zero j)⟩
  | cons c rest ih =>
    intro i victim best
    by_cases h : c > best
    · rcases ih (i + 1) i c with ⟨heq, hall⟩ | ⟨k, hk, heq, hbest, hmax, hstrict⟩
      · right
        refine ⟨0, Nat.succ_pos _, ?_, by simpa using h, ?_, ?_⟩
        · simpa [selectMax, if_pos h] using heq
        · intro j hj
          cases j with
          | zero => simp
          | succ j' =>
            simpa using hall j' (by simpa using Nat.lt_of_succ_lt_succ hj)
        · intro j hj
          exact absurd hj (Nat.not_lt_zero j)
      · right
        refine ⟨k + 1, Nat.succ_lt_succ hk, ?_, ?_, ?_, ?_⟩
        · simp only [selectMax, if_pos h, heq]
          omega
        · simpa using lt_trans h hbest
        · intro j hj
          cases j with
          | zero => simpa using le_of_lt hbest
          | succ j' =>
            simpa using hmax j' (by simpa using Nat.lt_of_succ_lt_succ hj)
        · intro j hj
          cases j with
          | zero => simpa using hbest
          | succ j' => simpa using hstrict j' (Nat.lt_of_succ_lt_succ hj)
    · rcases ih (i + 1) victim best
        with ⟨heq, hall⟩ | ⟨k, hk, heq, hbest, hmax, hstrict⟩
      · left
        refine ⟨by simpa [selectMax, if_neg h] using heq, ?_⟩
        intro j hj
        cases j with
        | zero => simpa using le_of_not_lt h
        | succ j' =>
          simpa using hall j' (by simpa using Nat.lt_of_succ_lt_succ hj)
      · right
        have hc : c ≤ best := le_of_not_lt h
        refine ⟨k + 1, Nat.succ_lt_succ hk, ?_, ?_, ?_, ?_⟩
        · simp only [selectMax, if_neg h, heq]
          omega
        · simpa using hbest
        · intro j hj
          cases j with
          | zero => simpa using le_of_lt (lt_of_le_of_lt hc hbest)
          | succ j' =>
            simpa using hmax j' (by simpa using Nat.lt_of_succ_lt_succ hj)
        · intro j hj
          cases j with
          | zero => simpa using lt_of_le_of_lt hc hbest
          | succ j' => simpa using hstrict j' (Nat.lt_of_succ_lt_succ hj)

/-- C1 counterexample: with `cexCfg` at clock 10, `getVictim` on the list
`[cexStale, cexFresh]` returns index 0, although the freshly recomputed cost
of `cexFresh` (1/2) is strictly greater than that of `cexStale` (0): the
stale cached `energyCost = 7` of the first candidate seeds `maxCost` and is
never beaten, so the returned candidate does not have maximal recomputed
cost. -/
theorem getVictim_stale_first_cex :
    getVictim cexCfg 10 [cexStale, cexFresh] = some 0 ∧
    calculateEnergyCost cexCfg cexStale 10
      < calculateEnergyCost cexCfg cexFresh 10 := by
  have hs : calculateEnergyCost cexCfg cexStale 10 = 0 := by
    norm_num [calculateEnergyCost, cexCfg, mkEnergyAwareRP, cexStale,
      recencyFactor, maxFreqQ, maxWritesQ, max_def]
  have hf : calculateEnergyCost cexCfg cexFresh 10 = 1/2 := by
    norm_num [calculateEnergyCost, cexCfg, mkEnergyAwareRP, cexFresh,
      recencyFactor, maxFreqQ, maxWritesQ, max_def]
  refine ⟨?_, by rw [hs, hf]; norm_num⟩
  show some (getVictimLoop cexCfg 10 [cexStale, cexFresh] 0 0
    cexStale.energyCost) = some 0
  simp only [getVictimLoop, hs, hf]
  norm_num [cexStale]

/-- C1 (amended): `getVictim` seeds `maxCost` with the first candidate's
previously cached cost; whenever that cached value is at most the first
candidate's freshly recomputed cost (as in every state whose cache is not
stale upward), `getVictim` returns the index of the earliest candidate whose
freshly recomputed cost is maximal: its cost is weakly greater than every
candidate's and strictly greater than every earlier candidate's. -/
theorem getVictim_fresh_argmax (cfg : PolicyConfig) (now : Nat)
    (c0 : EnergyAwareReplData) (rest : List EnergyAwareReplData)
    (h : c0.energyCost ≤ calculateEnergyCost cfg c0 now) :
    ∃ j, j < (c0 :: rest).length ∧
      getVictim cfg now (c0 :: rest) = some j ∧
      (∀ k, k < (c0 :: rest).length →
        ((c0 :: rest).map (fun c => calculateEnergyCost cfg c now)).getD k 0 ≤
          ((c0 :: rest).map (fun c => calculateEnergyCost cfg c now)).getD j 0)
      ∧
      ∀ l, l < j →
        ((c0 :: rest).map (fun c => calculateEnergyCost cfg c now)).getD l 0 <
          ((c0 :: rest).map (fun c => calculateEnergyCost cfg c now)).getD j 0
      := by
  have hv : getVictim cfg now (c0 :: rest)
      = some (selectMax ((c0 :: rest).map
          (fun c => calculateEnergyCost cfg c now)) 0 0 c0.energyCost) := by
    simp only [getVictim, getVictimLoop_eq_selectMax]
  have hlen : ((c0 :: rest).map
      (fun c => calculateEnergyCost cfg c now)).length
      = (c0 :: rest).length := List.length_map _ _
  have hget0 : ((c0 :: rest).map
      (fun c => calculateEnergyCost cfg c now)).getD 0 0
      = calculateEnergyCost cfg c0 now := by simp
  rcases selectMax_characterization
      ((c0 :: rest).map (fun c => calculateEnergyCost cfg c now))
      0 0 c0.energyCost
    with ⟨heq, hall⟩ | ⟨k, hk, heq, hbest, hmax, hstrict⟩
  · refine ⟨0, Nat.succ_pos _, by rw [hv, heq], ?_, ?_⟩
    · intro k hkl
      calc ((c0 :: rest).map (fun c => calculateEnergyCost cfg c now)).getD k 0
          ≤ c0.energyCost := hall k (by rw [hlen]; exact hkl)
        _ ≤ calculateEnergyCost cfg c0 now := h
        _ = ((c0 :: rest).map
              (fun c => calculateEnergyCost cfg c now)).getD 0 0 := hget0.symm
    · intro l hl
      exact absurd hl (Nat.not_lt_zero l)
  · refine ⟨k, by rw [← hlen]; exact hk, ?_, ?_, hstrict⟩
    · rw [hv, heq, Nat.zero_add]
    · intro k' hk'
      exact hmax k' (by rw [hlen]; exact hk')

/-- C1 witness: the amended theorem applied to the single-candidate list
`[instantiateEntry]` at clock 1 under the test-vector configuration; the
cached cost 0 is at most the recomputed cost (costs are clamped
non-negative). -/
theorem getVictim_fresh_argmax_witness :
    ∃ j, j < ([instantiateEntry] : List EnergyAwareReplData).length ∧
      getVictim cfg2 1 [instantiateEntry] = some j ∧
      (∀ k, k < ([instantiateEntry] : List EnergyAwareReplData).length →
        (([instantiateEntry] : List EnergyAwareReplData).map
          (fun c => calculateEnergyCost cfg2 c 1)).getD k 0 ≤
          (([instantiateEntry] : List EnergyAwareReplData).map
            (fun c => calculateEnergyCost cfg2 c 1)).getD j 0) ∧
      ∀ l, l < j →
        (([instantiateEntry] : List EnergyAwareReplData).map
          (fun c => calculateEnergyCost cfg2 c 1)).getD l 0 <
          (([instantiateEntry] : List EnergyAwareReplData).map
            (fun c => calculateEnergyCost cfg2 c 1)).getD j 0 :=
  getVictim_fresh_argmax cfg2 1 instantiateEntry []
    (le_max_left 0 _)

end EnergyAware
